import Mathlib

/-!
Verification of the core of `venom-blockchain/network` (ADNL / Overlay / RLDP).

The Rust sources under `src/` are shallowly embedded: byte arrays become
`List Nat`, machine integers become `Nat` with explicit `% 2^32` where a cast
truncates, fallible functions return `Except`, and mutation becomes explicit
state passing.  External collaborators (the `aes` crate, the `raptorq` crate,
TL (de)serialization, and repository modules that are not part of the given
sources) are modelled from the specification's stated contracts; every such
definition carries a doc comment starting with `Modelled from the spec:`.
-/

namespace VenomNetwork

/-! ## `src/utils/mod.rs` — packet cipher keying -/

/-- Models Rust's `dst[start .. start + src.len()].copy_from_slice(src)` on
byte lists: the bytes of `dst` in that range are replaced by `src`. -/
def copyFromSlice (dst : List Nat) (start : Nat) (src : List Nat) : List Nat :=
  dst.take start ++ src ++ dst.drop (start + src.length)

/-- Modelled from the spec: an AES-256-CTR cipher instance is determined by its
32-byte key and 16-byte initial counter block; the keystream computation itself
lives in the external `aes` crate and is irrelevant to the keying claims. -/
structure Aes256Ctr where
  key : List Nat
  iv : List Nat
deriving DecidableEq, Repr

/-- Embedding of `build_packet_cipher` (`src/utils/mod.rs:36-48`):
`aes_key_bytes` starts as a copy of `shared_secret` and its range `[16..32]`
is overwritten with `checksum[16..32]`; `aes_ctr_bytes` starts as
`checksum[0..16]` and its range `[4..16]` is overwritten with
`shared_secret[20..32]`. -/
def build_packet_cipher (shared_secret checksum : List Nat) : Aes256Ctr :=
  let aes_key_bytes := copyFromSlice shared_secret 16 ((checksum.drop 16).take 16)
  let aes_ctr_bytes := copyFromSlice (checksum.take 16) 4 ((shared_secret.drop 20).take 12)
  { key := aes_key_bytes, iv := aes_ctr_bytes }

/-- C1: For every 32-byte shared secret and 32-byte checksum,
`build_packet_cipher` yields the cipher whose 32-byte key is
`shared_secret[0..16] || checksum[16..32]` and whose 16-byte IV is
`checksum[0..4] || shared_secret[20..32]`. -/
theorem build_packet_cipher_key_iv (ss cs : List Nat)
    (hss : ss.length = 32) (hcs : cs.length = 32) :
    (build_packet_cipher ss cs).key = ss.take 16 ++ (cs.drop 16).take 16 ∧
    (build_packet_cipher ss cs).iv = cs.take 4 ++ (ss.drop 20).take 12 := by
  constructor
  · show copyFromSlice ss 16 ((cs.drop 16).take 16) = _
    unfold copyFromSlice
    have h1 : ((cs.drop 16).take 16).length = 16 := by
      simp [List.length_take, List.length_drop, hcs]
    rw [h1]
    have h2 : ss.drop 32 = [] := by
      apply List.drop_eq_nil_of_le; omega
    simp [h2]
  · show copyFromSlice (cs.take 16) 4 ((ss.drop 20).take 12) = _
    unfold copyFromSlice
    have h1 : ((ss.drop 20).take 12).length = 12 := by
      simp [List.length_take, List.length_drop, hss]
    rw [h1]
    have h2 : (cs.take 16).drop 16 = [] := by
      apply List.drop_eq_nil_of_le
      simp [List.length_take, hcs]
    have h3 : (cs.take 16).take 4 = cs.take 4 := by
      rw [List.take_take]
      norm_num
    simp [h2, h3]

/-- Witness for C1 at concrete 32-byte inputs. -/
theorem build_packet_cipher_key_iv_witness :
    (List.range 32).length = 32 ∧ ((List.range 32).map (· + 100)).length = 32 ∧
    ((build_packet_cipher (List.range 32) ((List.range 32).map (· + 100))).key =
        (List.range 32).take 16 ++ ((((List.range 32).map (· + 100)).drop 16).take 16) ∧
      (build_packet_cipher (List.range 32) ((List.range 32).map (· + 100))).iv =
        ((List.range 32).map (· + 100)).take 4 ++ (((List.range 32).drop 20).take 12)) :=
  ⟨by decide, by decide,
    build_packet_cipher_key_iv (List.range 32) ((List.range 32).map (· + 100))
      (by decide) (by decide)⟩

/-! ## `src/rldp_node/encoder.rs` — RaptorQ encoder -/

/-- A packet of the external raptorq library: its payload id's
`encoding_symbol_id` and its data bytes. -/
structure EncodingPacket where
  esi : Nat
  data : List Nat
deriving DecidableEq, Repr

/-- Modelled from the spec: a block encoder of the external raptorq library.
`source_packets` is the ordered packet list the library produces for the
block; `repairData` gives the payload bytes of the repair packet the library
generates for a given repair request id (`none` when it yields no packet). -/
structure BlockEncoder where
  source_packets : List EncodingPacket
  repairData : Nat → Option (List Nat)

instance : Inhabited BlockEncoder := ⟨⟨[], fun _ => none⟩⟩

/-- Modelled from the spec: `repair_packets(seqno, 1).pop()` on a block
encoder.  Per the spec ("when a repair packet is produced for caller-provided
`seqno`, that same value is used"), the produced packet's
`encoding_symbol_id` is the requested seqno. -/
def BlockEncoder.repairPacket (e : BlockEncoder) (seqno : Nat) : Option EncodingPacket :=
  (e.repairData seqno).map fun d => { esi := seqno, data := d }

structure RaptorQFecType where
  data_size : Nat
  symbol_size : Nat
  symbols_count : Nat
deriving DecidableEq, Repr

def MAX_TRANSMISSION_UNIT : Nat := 768

structure RaptorQEncoder where
  engine : List BlockEncoder
  params : RaptorQFecType
  source_packets : List EncodingPacket
  encoder_index : Nat

/-- Embedding of `RaptorQEncoder::with_data` (`src/rldp_node/encoder.rs:13-31`).
The construction `raptorq::Encoder::with_defaults(data, 768)` is external, so
the block encoders it produces (in library order) are the parameter `engine`;
the buffered source packet vector is each block's packet list reversed, the
blocks concatenated in library order, exactly as the `flat_map(.. .rev())`
does.  The `as u32` casts on `data.len()` and `source_packets.len()` truncate
modulo `2 ^ 32`. -/
def RaptorQEncoder.with_data (engine : List BlockEncoder) (data : List Nat) : RaptorQEncoder :=
  let source_packets := (engine.map fun e => e.source_packets.reverse).flatten
  { engine := engine
    params :=
      { data_size := data.length % 2 ^ 32
        symbol_size := MAX_TRANSMISSION_UNIT
        symbols_count := source_packets.length % 2 ^ 32 }
    source_packets := source_packets
    encoder_index := 0 }

inductive EncoderError
  | FailedToEncode
deriving DecidableEq, Repr

/-- Embedding of `RaptorQEncoder::encode` (`src/rldp_node/encoder.rs:33-49`):
pop the last buffered source packet if any; otherwise request one repair
packet from the block encoder at `encoder_index` for the caller's seqno and
advance `encoder_index` modulo the block count.  In both branches the caller's
seqno is rewritten to the produced packet's `encoding_symbol_id`.  Returns
`(data bytes, final seqno, new state)`. -/
def RaptorQEncoder.encode (self : RaptorQEncoder) (seqno : Nat) :
    Except EncoderError (List Nat × Nat × RaptorQEncoder) :=
  match self.source_packets.getLast? with
  | some packet =>
      .ok (packet.data, packet.esi,
        { self with source_packets := self.source_packets.dropLast })
  | none =>
      match (self.engine.getD self.encoder_index default).repairPacket seqno with
      | none => .error .FailedToEncode
      | some packet =>
          .ok (packet.data, packet.esi,
            { self with encoder_index := (self.encoder_index + 1) % self.engine.length })

/-- Runs `encode` once per entry of `seqnos` (the successive caller-provided
seqno values) and collects the emitted `(data, seqno)` pairs together with the
final encoder state, stopping at the first failure. -/
def RaptorQEncoder.encodeSeq (self : RaptorQEncoder) (seqnos : List Nat) :
    List (List Nat × Nat) × RaptorQEncoder :=
  match seqnos with
  | [] => ([], self)
  | s :: rest =>
      match self.encode s with
      | .error _ => ([], self)
      | .ok r => ((r.1, r.2.1) :: (r.2.2.encodeSeq rest).1, (r.2.2.encodeSeq rest).2)

/-- The block-encoder indices used by successive `encode` calls (each repair
request is served by the encoder at the state's current `encoder_index`). -/
def RaptorQEncoder.repairRun (self : RaptorQEncoder) (seqnos : List Nat) :
    List Nat × RaptorQEncoder :=
  match seqnos with
  | [] => ([], self)
  | s :: rest =>
      match self.encode s with
      | .error _ => ([], self)
      | .ok r => (self.encoder_index :: (r.2.2.repairRun rest).1, (r.2.2.repairRun rest).2)

/-- Total number of source packets across all block encoders. -/
def totalSourcePackets (engine : List BlockEncoder) : Nat :=
  (engine.map fun e => e.source_packets.length).sum

/-- The source-packet emission order asserted by the spec sentence: packets
reversed within each block encoder, blocks concatenated in library order.
(This is the order in which the packets are *stored*; the emission order is
its reverse, see the theorems below.) -/
def claimedSourceOrder (engine : List BlockEncoder) : List EncodingPacket :=
  (engine.map fun e => e.source_packets.reverse).flatten

/-- Source branch of `encode`: the last buffered packet is popped. -/
theorem encode_source_eq (self : RaptorQEncoder) (seqno : Nat) (p : EncodingPacket)
    (hp : self.source_packets.getLast? = some p) :
    self.encode seqno =
      .ok (p.data, p.esi,
        { self with source_packets := self.source_packets.dropLast }) := by
  unfold RaptorQEncoder.encode
  rw [hp]

/-- Repair branch of `encode`: with the buffer drained, one repair packet is
requested at `encoder_index` for the caller's seqno, which survives
unchanged, and the index advances modulo the block count. -/
theorem encode_repair_eq (self : RaptorQEncoder) (seqno : Nat) (d : List Nat)
    (hempty : self.source_packets = [])
    (hd : (self.engine.getD self.encoder_index default).repairData seqno = some d) :
    self.encode seqno =
      .ok (d, seqno,
        { self with encoder_index := (self.encoder_index + 1) % self.engine.length }) := by
  unfold RaptorQEncoder.encode
  rw [hempty]
  unfold BlockEncoder.repairPacket
  rw [hd]
  rfl

/-- C2: one `encode` step.  If a buffered source packet remains, it is popped
(the last of the buffer) and the caller's seqno becomes its
`encoding_symbol_id`; otherwise one repair packet is requested from the block
encoder at `encoder_index` for the caller's seqno (left unchanged in the
output), and `encoder_index` advances modulo the block-encoder count.  The
returned bytes are the packet's data. -/
theorem encode_step (self : RaptorQEncoder) (seqno : Nat) :
    (∀ p, self.source_packets.getLast? = some p →
        self.encode seqno =
          .ok (p.data, p.esi,
            { self with source_packets := self.source_packets.dropLast })) ∧
    (self.source_packets = [] →
        ∀ d, (self.engine.getD self.encoder_index default).repairData seqno = some d →
          self.encode seqno =
            .ok (d, seqno,
              { self with
                  encoder_index := (self.encoder_index + 1) % self.engine.length })) :=
  ⟨fun p hp => encode_source_eq self seqno p hp,
    fun hempty d hd => encode_repair_eq self seqno d hempty hd⟩

/-- A concrete block encoder with two source packets and total repair data. -/
def wBlock : BlockEncoder :=
  { source_packets := [{ esi := 0, data := [10] }, { esi := 1, data := [11] }]
    repairData := fun s => some [s + 40] }

/-- A second concrete block encoder. -/
def wBlock2 : BlockEncoder :=
  { source_packets := [{ esi := 0, data := [20] }]
    repairData := fun s => some [s + 60] }

/-- A concrete encoder state with buffered source packets. -/
def wEncSrc : RaptorQEncoder :=
  { engine := [wBlock]
    params := { data_size := 3, symbol_size := 768, symbols_count := 2 }
    source_packets := [{ esi := 0, data := [10] }, { esi := 1, data := [11] }]
    encoder_index := 0 }

/-- The same concrete encoder state with the source packets drained. -/
def wEncRep : RaptorQEncoder :=
  { wEncSrc with source_packets := [] }

/-- Witness for C2: both branches of `encode_step` at concrete states. -/
theorem encode_step_witness :
    (wEncSrc.source_packets.getLast? = some { esi := 1, data := [11] } ∧
      wEncSrc.encode 5 =
        .ok ([11], 1, { wEncSrc with source_packets := wEncSrc.source_packets.dropLast })) ∧
    (wEncRep.source_packets = [] ∧
      (wEncRep.engine.getD wEncRep.encoder_index default).repairData 7 = some [47] ∧
      wEncRep.encode 7 =
        .ok ([47], 7,
          { wEncRep with
              encoder_index := (wEncRep.encoder_index + 1) % wEncRep.engine.length })) :=
  ⟨⟨rfl, (encode_step wEncSrc 5).1 { esi := 1, data := [11] } rfl⟩,
    ⟨rfl, rfl, (encode_step wEncRep 7).2 rfl [47] rfl⟩⟩

/-- C4: the parameters built by `with_data`: `symbol_size` is the constant
768, `data_size` is the payload's byte length, and `symbols_count` is the
total number of source packets across all block encoders (the `as u32` casts
are the identity below `2 ^ 32`). -/
theorem with_data_params (engine : List BlockEncoder) (data : List Nat)
    (hdata : data.length < 2 ^ 32) (hsym : totalSourcePackets engine < 2 ^ 32) :
    (RaptorQEncoder.with_data engine data).params =
      { data_size := data.length
        symbol_size := 768
        symbols_count := totalSourcePackets engine } := by
  have hlen : ((engine.map fun e => e.source_packets.reverse).flatten).length
      = totalSourcePackets engine := by
    rw [List.length_flatten, List.map_map]
    unfold totalSourcePackets
    congr 1
    apply List.map_congr_left
    intro e _
    simp
  show RaptorQFecType.mk _ _ _ = _
  rw [hlen]
  unfold MAX_TRANSMISSION_UNIT
  rw [Nat.mod_eq_of_lt hdata, Nat.mod_eq_of_lt hsym]

/-- Witness for C4 at a concrete engine and payload. -/
theorem with_data_params_witness :
    ([1, 2, 3] : List Nat).length < 2 ^ 32 ∧
    totalSourcePackets [wBlock, wBlock2] < 2 ^ 32 ∧
    (RaptorQEncoder.with_data [wBlock, wBlock2] [1, 2, 3]).params =
      { data_size := 3, symbol_size := 768, symbols_count := 3 } :=
  ⟨by decide, by decide,
    with_data_params [wBlock, wBlock2] [1, 2, 3] (by decide) (by decide)⟩

/-- Unfolding equation for `encodeSeq` on a successful step. -/
theorem encodeSeq_cons_ok (self : RaptorQEncoder) (s : Nat) (rest : List Nat)
    (r : List Nat × Nat × RaptorQEncoder) (h : self.encode s = .ok r) :
    self.encodeSeq (s :: rest) =
      ((r.1, r.2.1) :: (r.2.2.encodeSeq rest).1, (r.2.2.encodeSeq rest).2) := by
  simp only [RaptorQEncoder.encodeSeq, h]

/-- Unfolding equation for `repairRun` on a successful step. -/
theorem repairRun_cons_ok (self : RaptorQEncoder) (s : Nat) (rest : List Nat)
    (r : List Nat × Nat × RaptorQEncoder) (h : self.encode s = .ok r) :
    self.repairRun (s :: rest) =
      (self.encoder_index :: (r.2.2.repairRun rest).1, (r.2.2.repairRun rest).2) := by
  simp only [RaptorQEncoder.repairRun, h]

/-- Draining: with the buffered source packets `sp`, `sp.length` calls to
`encode` emit exactly the buffered packets in reverse storage order (the
buffer is popped from the back) and leave the engine and `encoder_index`
untouched. -/
theorem encodeSeq_drain (engine : List BlockEncoder) (params : RaptorQFecType) (idx : Nat)
    (sp : List EncodingPacket) :
    ∀ seqnos : List Nat, seqnos.length = sp.length →
      RaptorQEncoder.encodeSeq ⟨engine, params, sp, idx⟩ seqnos =
        (sp.reverse.map fun p => (p.data, p.esi), ⟨engine, params, [], idx⟩) := by
  induction sp using List.reverseRecOn with
  | nil =>
      intro seqnos h
      have hseq : seqnos = [] := List.eq_nil_of_length_eq_zero h
      subst hseq
      rfl
  | append_singleton l p ih =>
      intro seqnos h
      cases seqnos with
      | nil => simp at h
      | cons q rest =>
          have hrest : rest.length = l.length := by
            rw [List.length_append] at h
            simpa using h
          have hstep : (⟨engine, params, l ++ [p], idx⟩ : RaptorQEncoder).encode q =
              .ok (p.data, p.esi, ⟨engine, params, l, idx⟩) := by
            have := encode_source_eq ⟨engine, params, l ++ [p], idx⟩ q p
              (by simp [List.getLast?_concat])
            simpa [List.dropLast_concat] using this
          rw [encodeSeq_cons_ok _ q rest
              (p.data, p.esi, ⟨engine, params, l, idx⟩) hstep,
            ih rest hrest]
          simp

/-- Repairs round-robin: from a drained state whose `encoder_index` is in
range, if every block encoder always yields a repair packet, the `k`-th
successive repair request is served by the block encoder at index
`(start + k) % n` where `n` is the block-encoder count. -/
theorem repairRun_round_robin (engine : List BlockEncoder) (params : RaptorQFecType)
    (hrep : ∀ e ∈ engine, ∀ q, (e.repairData q).isSome) :
    ∀ (seqnos : List Nat) (i : Nat), i < engine.length →
      (RaptorQEncoder.repairRun ⟨engine, params, [], i⟩ seqnos).1 =
        (List.range seqnos.length).map fun k => (i + k) % engine.length := by
  intro seqnos
  induction seqnos with
  | nil => intro i hi; rfl
  | cons q rest ih =>
      intro i hi
      have hget : engine.getD i default = engine.get ⟨i, hi⟩ := by
        rw [List.getD_eq_getElem?_getD, List.getElem?_eq_getElem hi]
        rfl
      obtain ⟨d, hd⟩ :=
        Option.isSome_iff_exists.mp (hrep (engine.get ⟨i, hi⟩) (List.get_mem engine i hi) q)
      have hstep : (⟨engine, params, [], i⟩ : RaptorQEncoder).encode q =
          .ok (d, q, ⟨engine, params, [], (i + 1) % engine.length⟩) :=
        encode_repair_eq ⟨engine, params, [], i⟩ q d rfl (by rw [hget]; exact hd)
      have hi' : (i + 1) % engine.length < engine.length := Nat.mod_lt _ (by omega)
      rw [repairRun_cons_ok _ q rest
          (d, q, ⟨engine, params, [], (i + 1) % engine.length⟩) hstep]
      show (i :: (RaptorQEncoder.repairRun
          ⟨engine, params, [], (i + 1) % engine.length⟩ rest).1) = _
      rw [ih ((i + 1) % engine.length) hi']
      simp only [List.length_cons]
      rw [List.range_succ_eq_map]
      simp only [List.map_cons, List.map_map]
      refine List.cons_eq_cons.mpr ⟨?_, ?_⟩
      · rw [Nat.add_zero, Nat.mod_eq_of_lt hi]
      · apply List.map_congr_left
        intro k _
        show ((i + 1) % engine.length + k) % engine.length
            = (i + Nat.succ k) % engine.length
        rw [Nat.mod_add_mod]
        congr 1
        omega

/-- C3 counterexample: for a single block encoder holding the two source
packets `(esi 0, data [10])` and `(esi 1, data [11])` (two calls' worth of
caller seqnos `5, 6`), the packets actually emitted are `[([10], 0), ([11], 1)]`,
while the order claimed by the spec sentence (reversed within the block,
blocks in library order) is `[([11], 1), ([10], 0)]` — the emission is the
*reverse* of the claimed order, not the claimed order itself. -/
theorem encoder_drain_order_counterexample :
    ((RaptorQEncoder.with_data [wBlock] [1, 2, 3]).encodeSeq [5, 6]).1 =
      [([10], 0), ([11], 1)] ∧
    (claimedSourceOrder [wBlock]).map (fun p => (p.data, p.esi)) =
      [([11], 1), ([10], 0)] ∧
    ((RaptorQEncoder.with_data [wBlock] [1, 2, 3]).encodeSeq [5, 6]).1 ≠
      (claimedSourceOrder [wBlock]).map fun p => (p.data, p.esi) :=
  ⟨rfl, rfl, by decide⟩

/-- C3 (amended): successive `encode` calls drain all source packets before
any repair packet is produced, and the source packets are emitted in the
*reverse* of the order named by the claim (`claimedSourceOrder`: reversed
within each block, blocks concatenated in library order) — equivalently,
blocks in reverse library order with each block's packets in the library's
original order; once drained, repair packets are drawn round-robin across the
block encoders. -/
theorem encoder_schedule_amended :
    (∀ (engine : List BlockEncoder) (data : List Nat) (seqnos : List Nat),
        seqnos.length = (claimedSourceOrder engine).length →
        (RaptorQEncoder.with_data engine data).encodeSeq seqnos =
          ((claimedSourceOrder engine).reverse.map fun p => (p.data, p.esi),
            { RaptorQEncoder.with_data engine data with source_packets := [] })) ∧
    (∀ (engine : List BlockEncoder) (params : RaptorQFecType) (i : Nat)
        (seqnos : List Nat),
        (∀ e ∈ engine, ∀ q, (e.repairData q).isSome) → i < engine.length →
        (RaptorQEncoder.repairRun ⟨engine, params, [], i⟩ seqnos).1 =
          (List.range seqnos.length).map fun k => (i + k) % engine.length) := by
  constructor
  · intro engine data seqnos h
    exact encodeSeq_drain engine (RaptorQEncoder.with_data engine data).params 0
      (claimedSourceOrder engine) seqnos h
  · intro engine params i seqnos hrep hi
    exact repairRun_round_robin engine params hrep seqnos i hi

/-- Witness for C3's amended theorem: the drain conjunct at a one-block
engine, and the round-robin conjunct at a two-block engine. -/
theorem encoder_schedule_amended_witness :
    (([5, 6] : List Nat).length = (claimedSourceOrder [wBlock]).length ∧
      (RaptorQEncoder.with_data [wBlock] [1, 2, 3]).encodeSeq [5, 6] =
        ((claimedSourceOrder [wBlock]).reverse.map fun p => (p.data, p.esi),
          { RaptorQEncoder.with_data [wBlock] [1, 2, 3] with source_packets := [] })) ∧
    ((∀ e ∈ ([wBlock, wBlock2] : List BlockEncoder), ∀ q, (e.repairData q).isSome) ∧
      0 < ([wBlock, wBlock2] : List BlockEncoder).length ∧
      (RaptorQEncoder.repairRun
          ⟨[wBlock, wBlock2], ⟨3, 768, 3⟩, [], 0⟩ [7, 8, 9]).1 =
        (List.range ([7, 8, 9] : List Nat).length).map
          fun k => (0 + k) % ([wBlock, wBlock2] : List BlockEncoder).length) := by
  have hrep : ∀ e ∈ ([wBlock, wBlock2] : List BlockEncoder), ∀ q,
      (e.repairData q).isSome := by
    intro e he q
    rcases List.mem_cons.mp he with rfl | he
    · rfl
    rcases List.mem_cons.mp he with rfl | he
    · rfl
    cases he
  exact ⟨⟨rfl, encoder_schedule_amended.1 [wBlock] [1, 2, 3] [5, 6] rfl⟩,
    ⟨hrep, by decide,
      encoder_schedule_amended.2 [wBlock, wBlock2] ⟨3, 768, 3⟩ 0 [7, 8, 9] hrep (by decide)⟩⟩

/-! ## `src/overlay_node/mod.rs` — overlay node -/

/-- A 32-byte short overlay id, abstracted to a natural number. -/
abbrev OverlayIdShort := Nat

/-- Embedding of the `OverlayNodeError` enum (`mod.rs:294-306`). -/
inductive OverlayNodeError
  | UnsupportedOverlayBroadcastMessage
  | UnknownOverlay
  | DeletingPublicOverlay
  | NoConsumerFound
  | UnsupportedQuery
deriving DecidableEq, Repr

/-- An `anyhow` error: either one of the node's own `OverlayNodeError` values
or an error propagated with `?` from a callee (subscriber or shard receive
method), identified by an opaque code. -/
inductive NodeError
  | overlay (e : OverlayNodeError)
  | external (code : Nat)
deriving DecidableEq, Repr

/-- Modelled from the spec: the per-overlay shard state (`overlay_shard.rs` is
not among the given sources).  Per spec invariant (iii), a shard is either
private (holds an overlay signing key) or public; `overlay_key` is the
`Option<Arc<StoredAdnlNodeKey>>` passed to `OverlayShard::new`.  `options`
stands for the opaque `OverlayShardOptions` value and `known_peers` for the
shard's known-peer table; neither affects the claims beyond shard identity. -/
structure OverlayShard where
  id : OverlayIdShort
  overlay_key : Option Nat
  options : Nat
  known_peers : List Nat
deriving DecidableEq, Repr

/-- Modelled from the spec: `OverlayShard::is_private` — a shard is private
iff it holds an overlay signing key (spec invariant (iii)). -/
def OverlayShard.is_private (s : OverlayShard) : Bool := s.overlay_key.isSome

/-- Modelled from the spec: `OverlayShard::new` records the overlay id, the
optional overlay key and the options; a fresh shard has no known peers yet. -/
def OverlayShard.new (id : OverlayIdShort) (overlay_key : Option Nat)
    (options : Nat) : OverlayShard :=
  { id := id, overlay_key := overlay_key, options := options, known_peers := [] }

/-- Modelled from the spec: `OverlayShard::process_get_random_peers` answers
with nodes from the shard's known-peers table ("replies with up to N random
nodes from the known-peers table"; the random sampling is abstracted to a
deterministic choice — the claims depend only on the query being handled
locally by the shard). -/
def OverlayShard.process_get_random_peers (s : OverlayShard)
    (peers : List Nat) : List Nat :=
  s.known_peers.take (peers.length + 1)

/-- Modelled from the spec: the TL objects relevant to the overlay query
bundle — `ton::rpc::overlay::Query { overlay }`, `GetRandomPeers { peers }`,
and every other TL object collapsed into an opaque `other`. -/
inductive TLObject
  | overlayQuery (overlay : OverlayIdShort)
  | getRandomPeers (peers : List Nat)
  | other (tag : Nat)
deriving DecidableEq, Repr

/-- `downcast::<ton::rpc::overlay::Query>()`: succeeds exactly on the
`overlayQuery` variant and otherwise returns the object unchanged. -/
def downcastOverlayQuery : TLObject → Except TLObject OverlayIdShort
  | .overlayQuery overlay => .ok overlay
  | q => .error q

/-- `downcast::<ton::rpc::overlay::GetRandomPeers>()`: succeeds exactly on
the `getRandomPeers` variant and otherwise returns the object unchanged. -/
def downcastGetRandomPeers : TLObject → Except TLObject (List Nat)
  | .getRandomPeers peers => .ok peers
  | q => .error q

/-- Modelled from the spec: the subscriber interface's
`try_consume_query(local, peer, query) → Consumed(bytes) | Rejected(query)`
(spec §9), with answers abstracted to byte lists. -/
inductive QueryConsumingResult
  | consumed (answer : List Nat)
  | rejected (query : TLObject)
deriving DecidableEq, Repr

/-- Modelled from the spec: a per-overlay subscriber is its possibly failing
`try_consume_query` handler (`subscriber.rs` is not among the given
sources). -/
structure OverlaySubscriber where
  tryConsumeQuery : TLObject → Except NodeError QueryConsumingResult

/-- Modelled from the spec: `QueryBundleConsumingResult` — a consumed answer
or the rejected bundle handed back. -/
inductive QueryBundleConsumingResult
  | consumed (answer : List Nat)
  | rejected (queries : List TLObject)
deriving DecidableEq, Repr

/-- Modelled from the spec: `QueryBundleConsumingResult::consume` wraps a
locally produced answer as a consumed result. -/
def QueryBundleConsumingResult.consume (answer : List Nat) :
    Except NodeError QueryBundleConsumingResult :=
  .ok (.consumed answer)

/-- The mutable state of `OverlayNode` relevant to the claims: its shard
table and its per-overlay subscriber table (`mod.rs:19-25`), as total lookup
functions on short overlay ids. -/
structure OverlayNode where
  shards : OverlayIdShort → Option OverlayShard
  subscribers : OverlayIdShort → Option OverlaySubscriber

/-- Embedding of `OverlayNode::add_subscriber` (`mod.rs:51-65`): a vacant
entry is filled and `true` returned; an occupied entry is kept untouched and
`false` returned. -/
def OverlayNode.add_subscriber (node : OverlayNode) (overlay_id : OverlayIdShort)
    (subscriber : OverlaySubscriber) : Bool × OverlayNode :=
  match node.subscribers overlay_id with
  | none =>
      (true,
        { node with
            subscribers := fun k =>
              if k = overlay_id then some subscriber else node.subscribers k })
  | some _ => (false, node)

/-- Embedding of `OverlayNode::add_overlay_shard` (`mod.rs:157-180`): a
vacant entry gets a fresh shard (returned with `new = true`); an occupied
entry returns the existing shard with `new = false`. -/
def OverlayNode.add_overlay_shard (node : OverlayNode) (overlay_id : OverlayIdShort)
    (overlay_key : Option Nat) (options : Nat) :
    (OverlayShard × Bool) × OverlayNode :=
  match node.shards overlay_id with
  | none =>
      let shard := OverlayShard.new overlay_id overlay_key options
      ((shard, true),
        { node with
            shards := fun k =>
              if k = overlay_id then some shard else node.shards k })
  | some shard => ((shard, false), node)

/-- Embedding of `OverlayNode::add_public_overlay` (`mod.rs:105-111`):
`add_overlay_shard` with no overlay key. -/
def OverlayNode.add_public_overlay (node : OverlayNode)
    (overlay_id : OverlayIdShort) (options : Nat) :
    (OverlayShard × Bool) × OverlayNode :=
  node.add_overlay_shard overlay_id none options

/-- Embedding of `OverlayNode::delete_private_overlay` (`mod.rs:127-140`):
an occupied entry is removed only when the shard is private, otherwise the
call fails with `DeletingPublicOverlay` and the table is untouched; a vacant
entry yields `Ok(false)`. -/
def OverlayNode.delete_private_overlay (node : OverlayNode)
    (overlay_id : OverlayIdShort) : Except NodeError Bool × OverlayNode :=
  match node.shards overlay_id with
  | some shard =>
      if !shard.is_private then
        (.error (.overlay .DeletingPublicOverlay), node)
      else
        (.ok true,
          { node with
              shards := fun k =>
                if k = overlay_id then none else node.shards k })
  | none => (.ok false, node)

/-- Embedding of `OverlayNode::get_overlay_shard` (`mod.rs:150-155`). -/
def OverlayNode.get_overlay_shard (node : OverlayNode)
    (overlay_id : OverlayIdShort) : Except NodeError OverlayShard :=
  match node.shards overlay_id with
  | some shard => .ok shard
  | none => .error (.overlay .UnknownOverlay)

/-- Modelled from the spec: `proto::overlay::Broadcast` — the `Broadcast` and
`BroadcastFec` variants carry their payload (abstracted to a tag); all other
variants are collapsed into `otherVariant`. -/
inductive OverlayBroadcast
  | broadcast (b : Nat)
  | broadcastFec (b : Nat)
  | otherVariant (tag : Nat)
deriving DecidableEq, Repr

/-- Embedding of `OverlayNode::try_consume_custom` (`mod.rs:185-217`),
parameterized over the external TL decoder for the
`(proto::overlay::Message, proto::overlay::Broadcast)` pair (`decode`, where
`some (overlay_id, broadcast)` is a successful decode) and over the shard
receive methods (`overlay_shard.rs` is not among the given sources): a failed
decode returns `Ok(false)`; an unknown overlay propagates `UnknownOverlay`;
the broadcast variants dispatch to the shard and return `Ok(true)` on its
success; any other variant is `UnsupportedOverlayBroadcastMessage`. -/
def OverlayNode.try_consume_custom
    (decode : List Nat → Option (OverlayIdShort × OverlayBroadcast))
    (receive_broadcast : OverlayShard → Nat → Except NodeError Unit)
    (receive_fec_broadcast : OverlayShard → Nat → Except NodeError Unit)
    (node : OverlayNode) (data : List Nat) : Except NodeError Bool :=
  match decode data with
  | none => .ok false
  | some (overlay_id, broadcast) =>
    match node.get_overlay_shard overlay_id with
    | .error e => .error e
    | .ok shard =>
      match broadcast with
      | .broadcast b =>
          match receive_broadcast shard b with
          | .ok _ => .ok true
          | .error e => .error e
      | .broadcastFec b =>
          match receive_fec_broadcast shard b with
          | .ok _ => .ok true
          | .error e => .error e
      | .otherVariant _ => .error (.overlay .UnsupportedOverlayBroadcastMessage)

/-- Embedding of `OverlayNode::try_consume_query_bundle` (`mod.rs:249-289`):
a bundle of length ≠ 2 is rejected unchanged; the first element is removed
and downcast to `overlay::Query` — on failure it is reinserted at the front
and the bundle rejected; a `GetRandomPeers` second element is served locally
by the shard; otherwise the per-overlay subscriber is consulted (missing →
`NoConsumerFound`; rejection → `UnsupportedQuery`).  The two `[]` branches
are unreachable (the bundle has length 2 there) and are mapped to rejecting
the input, mirroring that the code cannot take them. -/
def OverlayNode.try_consume_query_bundle (node : OverlayNode)
    (queries : List TLObject) : Except NodeError QueryBundleConsumingResult :=
  if queries.length ≠ 2 then .ok (.rejected queries)
  else
    match queries with
    | [] => .ok (.rejected queries)
    | q0 :: rest =>
      match downcastOverlayQuery q0 with
      | .error q => .ok (.rejected (q :: rest))
      | .ok overlay_id =>
        match rest with
        | [] => .ok (.rejected (q0 :: rest))
        | q1 :: _ =>
          match downcastGetRandomPeers q1 with
          | .ok query =>
              match node.get_overlay_shard overlay_id with
              | .error e => .error e
              | .ok shard =>
                  QueryBundleConsumingResult.consume
                    (shard.process_get_random_peers query)
          | .error query =>
              match node.subscribers overlay_id with
              | none => .error (.overlay .NoConsumerFound)
              | some consumer =>
                  match consumer.tryConsumeQuery query with
                  | .error e => .error e
                  | .ok (.consumed result) => .ok (.consumed result)
                  | .ok (.rejected _) => .error (.overlay .UnsupportedQuery)

/-- A failed `overlay::Query` downcast hands back the input object itself. -/
theorem downcastOverlayQuery_error_eq (q0 q : TLObject)
    (h : downcastOverlayQuery q0 = .error q) : q = q0 := by
  cases q0 <;> simp [downcastOverlayQuery] at h <;> exact h.symm

/-- An object that is no `overlay::Query` fails the downcast, unchanged. -/
theorem downcastOverlayQuery_not_query (q0 : TLObject)
    (h : ∀ oid, q0 ≠ .overlayQuery oid) :
    downcastOverlayQuery q0 = .error q0 := by
  cases q0 with
  | overlayQuery oid => exact absurd rfl (h oid)
  | getRandomPeers _ => rfl
  | other _ => rfl

/-- An object that is no `GetRandomPeers` fails that downcast, unchanged. -/
theorem downcastGetRandomPeers_not_grp (q1 : TLObject)
    (h : ∀ peers, q1 ≠ .getRandomPeers peers) :
    downcastGetRandomPeers q1 = .error q1 := by
  cases q1 with
  | getRandomPeers peers => exact absurd rfl (h peers)
  | overlayQuery _ => rfl
  | other _ => rfl

/-- C5: `try_consume_query_bundle` semantics: a bundle of length ≠ 2, or one
whose first element is not an `overlay::Query`, is rejected (not consumed); a
`GetRandomPeers` second element is handled locally by the shard; otherwise the
per-overlay subscriber is consulted — a missing subscriber yields
`NoConsumerFound`, and subscriber rejection yields `UnsupportedQuery`. -/
theorem query_bundle_semantics (node : OverlayNode) :
    (∀ queries : List TLObject, queries.length ≠ 2 →
        node.try_consume_query_bundle queries = .ok (.rejected queries)) ∧
    (∀ q0 q1, (∀ oid, q0 ≠ .overlayQuery oid) →
        node.try_consume_query_bundle [q0, q1] = .ok (.rejected [q0, q1])) ∧
    (∀ oid peers shard, node.shards oid = some shard →
        node.try_consume_query_bundle [.overlayQuery oid, .getRandomPeers peers] =
          .ok (.consumed (shard.process_get_random_peers peers))) ∧
    (∀ oid q1, (∀ peers, q1 ≠ .getRandomPeers peers) →
        node.subscribers oid = none →
        node.try_consume_query_bundle [.overlayQuery oid, q1] =
          .error (.overlay .NoConsumerFound)) ∧
    (∀ oid q1 consumer q', (∀ peers, q1 ≠ .getRandomPeers peers) →
        node.subscribers oid = some consumer →
        consumer.tryConsumeQuery q1 = .ok (.rejected q') →
        node.try_consume_query_bundle [.overlayQuery oid, q1] =
          .error (.overlay .UnsupportedQuery)) := by
  refine ⟨?_, ?_, ?_, ?_, ?_⟩
  · intro queries hlen
    unfold OverlayNode.try_consume_query_bundle
    rw [if_pos hlen]
  · intro q0 q1 h
    unfold OverlayNode.try_consume_query_bundle
    rw [if_neg (by simp)]
    simp [downcastOverlayQuery_not_query q0 h]
  · intro oid peers shard hs
    unfold OverlayNode.try_consume_query_bundle
    rw [if_neg (by simp)]
    simp [downcastOverlayQuery, downcastGetRandomPeers,
      OverlayNode.get_overlay_shard, hs, QueryBundleConsumingResult.consume]
  · intro oid q1 hq hsub
    unfold OverlayNode.try_consume_query_bundle
    rw [if_neg (by simp)]
    simp [downcastOverlayQuery, downcastGetRandomPeers_not_grp q1 hq, hsub]
  · intro oid q1 consumer q' hq hsub hc
    unfold OverlayNode.try_consume_query_bundle
    rw [if_neg (by simp)]
    simp [downcastOverlayQuery, downcastGetRandomPeers_not_grp q1 hq, hsub, hc]

/-- C6: `try_consume_custom` semantics: a failed decode of the
`(message, broadcast)` pair is not-consumed (`Ok(false)`); an unknown overlay
yields `UnknownOverlay`; the `Broadcast` / `BroadcastFec` variants dispatch to
`receive_broadcast` / `receive_fec_broadcast` and, on the shard call's
success, yield `Ok(true)`; any other broadcast variant yields
`UnsupportedOverlayBroadcastMessage`. -/
theorem custom_message_semantics
    (decode : List Nat → Option (OverlayIdShort × OverlayBroadcast))
    (rb rfb : OverlayShard → Nat → Except NodeError Unit)
    (node : OverlayNode) (data : List Nat) :
    (decode data = none →
        OverlayNode.try_consume_custom decode rb rfb node data = .ok false) ∧
    (∀ oid b, decode data = some (oid, b) → node.shards oid = none →
        OverlayNode.try_consume_custom decode rb rfb node data =
          .error (.overlay .UnknownOverlay)) ∧
    (∀ oid b shard, decode data = some (oid, .broadcast b) →
        node.shards oid = some shard → rb shard b = .ok () →
        OverlayNode.try_consume_custom decode rb rfb node data = .ok true) ∧
    (∀ oid b shard, decode data = some (oid, .broadcastFec b) →
        node.shards oid = some shard → rfb shard b = .ok () →
        OverlayNode.try_consume_custom decode rb rfb node data = .ok true) ∧
    (∀ oid t shard, decode data = some (oid, .otherVariant t) →
        node.shards oid = some shard →
        OverlayNode.try_consume_custom decode rb rfb node data =
          .error (.overlay .UnsupportedOverlayBroadcastMessage)) := by
  refine ⟨?_, ?_, ?_, ?_, ?_⟩
  · intro hdec
    simp [OverlayNode.try_consume_custom, hdec]
  · intro oid b hdec hs
    cases b <;>
      simp [OverlayNode.try_consume_custom, hdec, OverlayNode.get_overlay_shard, hs]
  · intro oid b shard hdec hs hr
    simp [OverlayNode.try_consume_custom, hdec, OverlayNode.get_overlay_shard, hs, hr]
  · intro oid b shard hdec hs hr
    simp [OverlayNode.try_consume_custom, hdec, OverlayNode.get_overlay_shard, hs, hr]
  · intro oid t shard hdec hs
    simp [OverlayNode.try_consume_custom, hdec, OverlayNode.get_overlay_shard, hs]

/-- C7: once `add_public_overlay` has created the shard (the call returned
`new = true`), `delete_private_overlay` on that id fails with
`DeletingPublicOverlay`, leaves the node state unchanged, and the shard is
still in the table afterwards. -/
theorem delete_public_overlay_refused (node : OverlayNode)
    (overlay_id : OverlayIdShort) (options : Nat)
    (hnew : (node.add_public_overlay overlay_id options).1.2 = true) :
    (node.add_public_overlay overlay_id options).2.delete_private_overlay
        overlay_id =
      (.error (.overlay .DeletingPublicOverlay),
        (node.add_public_overlay overlay_id options).2) ∧
    ((node.add_public_overlay overlay_id options).2.delete_private_overlay
        overlay_id).2.shards overlay_id =
      some (node.add_public_overlay overlay_id options).1.1 := by
  unfold OverlayNode.add_public_overlay OverlayNode.add_overlay_shard at hnew ⊢
  cases h : node.shards overlay_id with
  | some shard => rw [h] at hnew; simp at hnew
  | none =>
      simp [OverlayNode.delete_private_overlay, OverlayShard.new,
        OverlayShard.is_private]

/-- C8: once `add_subscriber` has returned `true` for `s1` on an id, a later
`add_subscriber` with any `s2` on the same id returns `false` and the
subscriber registered for the id remains `s1`. -/
theorem add_subscriber_no_overwrite (node : OverlayNode)
    (overlay_id : OverlayIdShort) (s1 s2 : OverlaySubscriber)
    (h : (node.add_subscriber overlay_id s1).1 = true) :
    ((node.add_subscriber overlay_id s1).2.add_subscriber overlay_id s2).1 =
        false ∧
    ((node.add_subscriber overlay_id s1).2.add_subscriber overlay_id
        s2).2.subscribers overlay_id = some s1 := by
  unfold OverlayNode.add_subscriber at h ⊢
  cases hs : node.subscribers overlay_id with
  | some s => rw [hs] at h; simp at h
  | none => simp

/-- C9: `add_public_overlay` is idempotent: a second call with the same id
returns the shard the first call returned, with `new = false`, and leaves the
node state — in particular the shard table — unchanged. -/
theorem add_public_overlay_idempotent (node : OverlayNode)
    (overlay_id : OverlayIdShort) (options1 options2 : Nat) :
    ((node.add_public_overlay overlay_id options1).2).add_public_overlay
        overlay_id options2 =
      (((node.add_public_overlay overlay_id options1).1.1, false),
        (node.add_public_overlay overlay_id options1).2) := by
  unfold OverlayNode.add_public_overlay OverlayNode.add_overlay_shard
  cases h : node.shards overlay_id with
  | none => simp
  | some shard => simp [h]

/-- C10: rejection by `try_consume_query_bundle` is atomic: whenever the
result is `Rejected`, the returned bundle is exactly the input bundle with
its elements in their original order (the removed first element having been
reinserted at the front). -/
theorem query_bundle_rejection_atomic (node : OverlayNode)
    (queries qs : List TLObject)
    (h : node.try_consume_query_bundle queries = .ok (.rejected qs)) :
    qs = queries := by
  unfold OverlayNode.try_consume_query_bundle at h
  by_cases hlen : queries.length ≠ 2
  · rw [if_pos hlen] at h
    simp only [Except.ok.injEq, QueryBundleConsumingResult.rejected.injEq] at h
    exact h.symm
  · rw [if_neg hlen] at h
    push_neg at hlen
    rcases queries with _ | ⟨q0, _ | ⟨q1, _ | ⟨q2, rest⟩⟩⟩
    · simp at hlen
    · simp at hlen
    · cases hq0 : downcastOverlayQuery q0 with
      | error q =>
          simp only [hq0] at h
          simp only [Except.ok.injEq, QueryBundleConsumingResult.rejected.injEq] at h
          rw [← h, downcastOverlayQuery_error_eq q0 q hq0]
      | ok oid =>
          simp only [hq0] at h
          cases hq1 : downcastGetRandomPeers q1 with
          | ok g =>
              simp only [hq1] at h
              unfold OverlayNode.get_overlay_shard at h
              cases hs : node.shards oid <;>
                simp [hs, QueryBundleConsumingResult.consume] at h
          | error q =>
              simp only [hq1] at h
              cases hsub : node.subscribers oid with
              | none => simp [hsub] at h
              | some c =>
                  simp only [hsub] at h
                  cases hc : c.tryConsumeQuery q with
                  | error e => simp [hc] at h
                  | ok r => cases r <;> simp [hc] at h
    · simp at hlen

/-- A concrete public shard for the overlay witnesses. -/
def wShard : OverlayShard :=
  { id := 1, overlay_key := none, options := 0, known_peers := [4, 5] }

/-- A concrete subscriber that rejects every query. -/
def wSubscriberReject : OverlaySubscriber :=
  ⟨fun q => .ok (.rejected q)⟩

/-- A concrete subscriber that consumes every query. -/
def wSubscriberConsume : OverlaySubscriber :=
  ⟨fun _ => .ok (.consumed [1])⟩

/-- A concrete node: shard at id 1, subscriber at id 2. -/
def wNode : OverlayNode :=
  { shards := fun k => if k = 1 then some wShard else none
    subscribers := fun k => if k = 2 then some wSubscriberReject else none }

/-- An overlay node with empty tables. -/
def emptyNode : OverlayNode :=
  { shards := fun _ => none, subscribers := fun _ => none }

/-- Witness for C5: all five branches at concrete bundles. -/
theorem query_bundle_semantics_witness :
    (([TLObject.other 0] : List TLObject).length ≠ 2 ∧
      wNode.try_consume_query_bundle [TLObject.other 0] =
        .ok (.rejected [TLObject.other 0])) ∧
    ((∀ oid, TLObject.other 3 ≠ TLObject.overlayQuery oid) ∧
      wNode.try_consume_query_bundle [TLObject.other 3, TLObject.other 4] =
        .ok (.rejected [TLObject.other 3, TLObject.other 4])) ∧
    (wNode.shards 1 = some wShard ∧
      wNode.try_consume_query_bundle
          [TLObject.overlayQuery 1, TLObject.getRandomPeers [9]] =
        .ok (.consumed (wShard.process_get_random_peers [9]))) ∧
    ((∀ peers, TLObject.other 7 ≠ TLObject.getRandomPeers peers) ∧
      wNode.subscribers 3 = none ∧
      wNode.try_consume_query_bundle [TLObject.overlayQuery 3, TLObject.other 7] =
        .error (.overlay .NoConsumerFound)) ∧
    ((∀ peers, TLObject.other 7 ≠ TLObject.getRandomPeers peers) ∧
      wNode.subscribers 2 = some wSubscriberReject ∧
      wSubscriberReject.tryConsumeQuery (TLObject.other 7) =
        .ok (.rejected (TLObject.other 7)) ∧
      wNode.try_consume_query_bundle [TLObject.overlayQuery 2, TLObject.other 7] =
        .error (.overlay .UnsupportedQuery)) := by
  have hq0 : ∀ oid, TLObject.other 3 ≠ TLObject.overlayQuery oid :=
    fun _ h => TLObject.noConfusion h
  have hq1 : ∀ peers, TLObject.other 7 ≠ TLObject.getRandomPeers peers :=
    fun _ h => TLObject.noConfusion h
  exact ⟨⟨by decide,
      (query_bundle_semantics wNode).1 [TLObject.other 0] (by decide)⟩,
    ⟨hq0, (query_bundle_semantics wNode).2.1 (TLObject.other 3)
      (TLObject.other 4) hq0⟩,
    ⟨rfl, (query_bundle_semantics wNode).2.2.1 1 [9] wShard rfl⟩,
    ⟨hq1, rfl, (query_bundle_semantics wNode).2.2.2.1 3 (TLObject.other 7)
      hq1 rfl⟩,
    ⟨hq1, rfl, rfl, (query_bundle_semantics wNode).2.2.2.2 2 (TLObject.other 7)
      wSubscriberReject (TLObject.other 7) hq1 rfl rfl⟩⟩

/-- A concrete decoder for the C6 witness. -/
def wDecode : List Nat → Option (OverlayIdShort × OverlayBroadcast) := fun data =>
  match data with
  | [1, b] => some (1, .broadcast b)
  | [2, b] => some (1, .broadcastFec b)
  | [3, t] => some (1, .otherVariant t)
  | [4, b] => some (9, .broadcast b)
  | _ => none

/-- A concrete shard receive method that always succeeds. -/
def wReceive : OverlayShard → Nat → Except NodeError Unit := fun _ _ => .ok ()

/-- Witness for C6: all five branches at concrete messages. -/
theorem custom_message_semantics_witness :
    (wDecode [0] = none ∧
      OverlayNode.try_consume_custom wDecode wReceive wReceive wNode [0] =
        .ok false) ∧
    (wDecode [4, 5] = some (9, .broadcast 5) ∧ wNode.shards 9 = none ∧
      OverlayNode.try_consume_custom wDecode wReceive wReceive wNode [4, 5] =
        .error (.overlay .UnknownOverlay)) ∧
    (wDecode [1, 5] = some (1, .broadcast 5) ∧ wNode.shards 1 = some wShard ∧
      wReceive wShard 5 = .ok () ∧
      OverlayNode.try_consume_custom wDecode wReceive wReceive wNode [1, 5] =
        .ok true) ∧
    (wDecode [2, 5] = some (1, .broadcastFec 5) ∧ wNode.shards 1 = some wShard ∧
      wReceive wShard 5 = .ok () ∧
      OverlayNode.try_consume_custom wDecode wReceive wReceive wNode [2, 5] =
        .ok true) ∧
    (wDecode [3, 6] = some (1, .otherVariant 6) ∧ wNode.shards 1 = some wShard ∧
      OverlayNode.try_consume_custom wDecode wReceive wReceive wNode [3, 6] =
        .error (.overlay .UnsupportedOverlayBroadcastMessage)) :=
  ⟨⟨rfl, (custom_message_semantics wDecode wReceive wReceive wNode [0]).1 rfl⟩,
    ⟨rfl, rfl, (custom_message_semantics wDecode wReceive wReceive wNode
      [4, 5]).2.1 9 (.broadcast 5) rfl rfl⟩,
    ⟨rfl, rfl, rfl, (custom_message_semantics wDecode wReceive wReceive wNode
      [1, 5]).2.2.1 1 5 wShard rfl rfl rfl⟩,
    ⟨rfl, rfl, rfl, (custom_message_semantics wDecode wReceive wReceive wNode
      [2, 5]).2.2.2.1 1 5 wShard rfl rfl rfl⟩,
    ⟨rfl, rfl, (custom_message_semantics wDecode wReceive wReceive wNode
      [3, 6]).2.2.2.2 1 6 wShard rfl rfl⟩⟩

/-- Witness for C7 at the empty node. -/
theorem delete_public_overlay_refused_witness :
    (emptyNode.add_public_overlay 1 0).1.2 = true ∧
    ((emptyNode.add_public_overlay 1 0).2.delete_private_overlay 1 =
        (.error (.overlay .DeletingPublicOverlay),
          (emptyNode.add_public_overlay 1 0).2) ∧
      ((emptyNode.add_public_overlay 1 0).2.delete_private_overlay 1).2.shards 1 =
        some (emptyNode.add_public_overlay 1 0).1.1) :=
  ⟨rfl, delete_public_overlay_refused emptyNode 1 0 rfl⟩

/-- Witness for C8 at the empty node and two distinct subscribers. -/
theorem add_subscriber_no_overwrite_witness :
    (emptyNode.add_subscriber 1 wSubscriberReject).1 = true ∧
    (((emptyNode.add_subscriber 1 wSubscriberReject).2.add_subscriber 1
          wSubscriberConsume).1 = false ∧
      ((emptyNode.add_subscriber 1 wSubscriberReject).2.add_subscriber 1
          wSubscriberConsume).2.subscribers 1 = some wSubscriberReject) :=
  ⟨rfl,
    add_subscriber_no_overwrite emptyNode 1 wSubscriberReject wSubscriberConsume rfl⟩

/-- Witness for C10: a rejected two-element bundle comes back unchanged. -/
theorem query_bundle_rejection_atomic_witness :
    wNode.try_consume_query_bundle [TLObject.other 0, TLObject.other 1] =
      .ok (.rejected [TLObject.other 0, TLObject.other 1]) ∧
    ([TLObject.other 0, TLObject.other 1] : List TLObject) =
      [TLObject.other 0, TLObject.other 1] :=
  ⟨rfl, query_bundle_rejection_atomic wNode
    [TLObject.other 0, TLObject.other 1] [TLObject.other 0, TLObject.other 1] rfl⟩

end VenomNetwork
